import Mathlib

/-!
Verification development for the strawberry-boards plugins (karma, starboard).

The definitions below are a shallow embedding of the reaction-driven counter
aggregation engine of `karma/module.py` together with the starboard repost /
deduplication state machine of `starboard/module.py` and the database helpers
of `karma/database.py` and `starboard/database.py`.

Conventions of the embedding:
* Python dicts keyed by `(guild_id, user_id)` become insertion-ordered
  association lists `List (CacheKey × Int)`; `setdefault` followed by `+=`
  are modelled as separate steps, exactly as in the source.
* Database tables become `List` of row structures; SQLAlchemy query helpers
  (`filter_by`, `one_or_none`, `first`) become the corresponding list
  operations.  `one_or_none` can raise `MultipleResultsFound`, which is
  modelled with `Except`.
* Calls into the chat platform (message fetches, sends) are modelled by
  oracle arguments: an `Option` result stands for "the awaited call returned
  this value / raised and was caught as documented at the call site".
* Python keyword-argument binding is modelled explicitly where the source
  calls a function with keyword arguments that may not match its signature:
  a call raises `TypeError` exactly when a required parameter is missing or
  an unexpected keyword is passed.
-/

/-- Key of the karma caches: `(guild_id, user_id)`, see `Karma.get_cache_key`. -/
abbrev CacheKey := Int × Int

/-- One in-memory accumulator (`value_cache` / `given_cache` / `taken_cache`):
a Python dict from cache key to accumulated signed delta, kept in insertion
order. -/
abbrev KarmaCache := List (CacheKey × Int)

/-- Whether the dict has an entry for key `k`. -/
def hasKey (c : KarmaCache) (k : CacheKey) : Bool :=
  c.any (fun p => p.fst == k)

/-- Python `dict.setdefault(k, v0)`: inserts `k ↦ v0` at the end if `k` is
absent, otherwise leaves the dict unchanged. -/
def setdefault (c : KarmaCache) (k : CacheKey) (v0 : Int) : KarmaCache :=
  if hasKey c k then c else c ++ [(k, v0)]

/-- Python `cache[k] += d` on a dict that contains `k`. -/
def dictAdd (c : KarmaCache) (k : CacheKey) (d : Int) : KarmaCache :=
  c.map (fun p => if p.fst == k then (p.fst, p.snd + d) else p)

/-- The delta-application idiom used on every accumulator by
`Karma.reaction_added` / `Karma.reaction_removed`:
`cache.setdefault(key, 0); cache[key] += delta`. -/
def apply_delta (c : KarmaCache) (k : CacheKey) (d : Int) : KarmaCache :=
  dictAdd (setdefault c k 0) k d

/-- `Karma.get_cache_key`. -/
def get_cache_key (guild_id user_id : Int) : CacheKey :=
  (guild_id, user_id)

/-- The three in-memory accumulators held by the `Karma` cog. -/
structure KarmaCaches where
  value_cache : KarmaCache
  given_cache : KarmaCache
  taken_cache : KarmaCache
  deriving DecidableEq

/-- Body of `Karma.reaction_added` (`karma/module.py`, lines 749-770): adds
`emoji_value` to the message author's `value` accumulator and credits the
reactor's `given` (positive emoji) or `taken` (non-positive emoji)
accumulator. -/
def reaction_added (guild_id msg_author_id react_author_id emoji_value : Int)
    (c : KarmaCaches) : KarmaCaches :=
  let msg_author := get_cache_key guild_id msg_author_id
  let react_author := get_cache_key guild_id react_author_id
  let value_cache := apply_delta c.value_cache msg_author emoji_value
  if emoji_value > 0 then
    ⟨value_cache, apply_delta c.given_cache react_author emoji_value, c.taken_cache⟩
  else
    ⟨value_cache, c.given_cache, apply_delta c.taken_cache react_author (-emoji_value)⟩

/-- Body of `Karma.reaction_removed` (`karma/module.py`, lines 772-794):
the exact sign-inverse of `reaction_added`. -/
def reaction_removed (guild_id msg_author_id react_author_id emoji_value : Int)
    (c : KarmaCaches) : KarmaCaches :=
  let msg_author := get_cache_key guild_id msg_author_id
  let react_author := get_cache_key guild_id react_author_id
  let value_cache := apply_delta c.value_cache msg_author (-emoji_value)
  if emoji_value > 0 then
    ⟨value_cache, apply_delta c.given_cache react_author (-emoji_value), c.taken_cache⟩
  else
    ⟨value_cache, c.given_cache, apply_delta c.taken_cache react_author (-(-emoji_value))⟩

/-- Which column of `KarmaMember` a flush entry increments. -/
inductive KarmaField where
  | value
  | given
  | taken
  deriving DecidableEq

/-- One persistent-store increment performed during a flush: the
`get_or_add` / `member.<field> += delta` / `save` sequence of
`Karma._karma_cache_save` for one cache entry. -/
structure StoreOp where
  key : CacheKey
  field : KarmaField
  delta : Int
  deriving DecidableEq

/-- `Karma._karma_cache_save` (`karma/module.py`, lines 59-81): snapshot and
clear all three accumulators, then emit one store increment per snapshot
entry, in accumulator order `value`, `given`, `taken` and dict insertion
order inside each accumulator. -/
def karma_cache_save (c : KarmaCaches) : List StoreOp × KarmaCaches :=
  (c.value_cache.map (fun p => ⟨p.fst, KarmaField.value, p.snd⟩) ++
   c.given_cache.map (fun p => ⟨p.fst, KarmaField.given, p.snd⟩) ++
   c.taken_cache.map (fun p => ⟨p.fst, KarmaField.taken, p.snd⟩),
   ⟨[], [], []⟩)

/-- Executes the store increments of a flush in order against a store that
may fail.  `ok op = false` models `member.save()` (or `get_or_add`) raising
for that entry; the source has no try/except around the loops in
`_karma_cache_save`, so the first failure aborts the remaining entries and
the exception propagates. -/
def run_store_ops (ok : StoreOp → Bool) : List StoreOp → List StoreOp × Except Unit Unit
  | [] => ([], Except.ok ())
  | op :: rest =>
    if ok op then
      let done := run_store_ops ok rest
      (op :: done.fst, done.snd)
    else ([], Except.error ())

/-- `Karma._karma_cache_save` run against a fallible store: the caches are
snapshotted and cleared first, then the increments run until the first
store error, which propagates. -/
def karma_cache_save_run (ok : StoreOp → Bool) (c : KarmaCaches) :
    (List StoreOp × Except Unit Unit) × KarmaCaches :=
  (run_store_ops ok (karma_cache_save c).fst, ⟨[], [], []⟩)

/-- Parameter names of `Karma.reaction_added(self, guild_id, msg_author_id,
react_author_id, emoji_value)`; none has a default value. -/
def reaction_added_params : List String :=
  ["guild_id", "msg_author_id", "react_author_id", "emoji_value"]

/-- Parameter names of `Karma.reaction_removed(self, guild_id, msg_author_id,
react_author_id, emoji_value)`; none has a default value. -/
def reaction_removed_params : List String :=
  ["guild_id", "msg_author_id", "react_author_id", "emoji_value"]

/-- Python keyword-argument binding for a call that passes only keyword
arguments to a function whose parameters all lack defaults: binding succeeds
iff every parameter is supplied and every keyword names a parameter;
otherwise the call raises `TypeError`. -/
def binds (params kwargs : List String) : Bool :=
  params.all (fun p => kwargs.contains p) && kwargs.all (fun k => params.contains k)

/-- Looks a keyword argument up in the bound argument list. -/
def kwlookup (kwargs : List (String × Int)) (name : String) : Int :=
  ((kwargs.find? (fun p => p.fst == name)).map (fun p => p.snd)).getD 0

/-- A Python call `self.reaction_added(**kwargs)`: raises `TypeError`
(without running the body) when the keywords do not bind to the signature. -/
def call_reaction_added (kwargs : List (String × Int)) (c : KarmaCaches) :
    Except String KarmaCaches :=
  if binds reaction_added_params (kwargs.map (fun p => p.fst)) then
    Except.ok (reaction_added (kwlookup kwargs "guild_id") (kwlookup kwargs "msg_author_id")
      (kwlookup kwargs "react_author_id") (kwlookup kwargs "emoji_value") c)
  else Except.error "TypeError"

/-- A Python call `self.reaction_removed(**kwargs)`: raises `TypeError`
(without running the body) when the keywords do not bind to the signature. -/
def call_reaction_removed (kwargs : List (String × Int)) (c : KarmaCaches) :
    Except String KarmaCaches :=
  if binds reaction_removed_params (kwargs.map (fun p => p.fst)) then
    Except.ok (reaction_removed (kwlookup kwargs "guild_id") (kwlookup kwargs "msg_author_id")
      (kwlookup kwargs "react_author_id") (kwlookup kwargs "emoji_value") c)
  else Except.error "TypeError"

/-- Result of one event through `Karma._process_reaction`. -/
inductive KarmaEventOutcome where
  | ignoredChannel
  | zeroEmojiValue
  | messageNotFound
  | typeError
  | relayed
  deriving DecidableEq

/-- `Karma._process_reaction` (`karma/module.py`, lines 703-747).  The
channel-ignore lookup, the emoji valuation and the message fetch are oracle
inputs; `fetched_author` is the author id of the fetched message, `none`
meaning the fetch failed / returned nothing.  The add path calls
`reaction_added(msg_author_id=..., react_author_id=..., emoji_value=...)`
(no `guild_id`); the remove path calls
`reaction_removed(message_author=..., reaction_author=..., emoji_value=...)`;
keyword binding is checked as Python does. -/
def karma_process_reaction (ignored : Bool) (emoji_value : Int)
    (fetched_author : Option Int) (user_id : Int) (added : Bool)
    (c : KarmaCaches) : KarmaEventOutcome × KarmaCaches :=
  if ignored then (KarmaEventOutcome.ignoredChannel, c)
  else if emoji_value == 0 then (KarmaEventOutcome.zeroEmojiValue, c)
  else
    match fetched_author with
    | none => (KarmaEventOutcome.messageNotFound, c)
    | some author =>
      if added then
        match call_reaction_added
            [("msg_author_id", author), ("react_author_id", user_id),
             ("emoji_value", emoji_value)] c with
        | Except.ok c2 => (KarmaEventOutcome.relayed, c2)
        | Except.error _ => (KarmaEventOutcome.typeError, c)
      else
        match call_reaction_removed
            [("message_author", author), ("reaction_author", user_id),
             ("emoji_value", emoji_value)] c with
        | Except.ok c2 => (KarmaEventOutcome.relayed, c2)
        | Except.error _ => (KarmaEventOutcome.typeError, c)

/-- Row of the `boards_starboard_messages` table (`starboard/database.py`),
one per physical repost message; a source message may map to several rows. -/
structure StarboardMessage where
  idx : Int
  guild_id : Int
  author_id : Int
  source_channel_id : Int
  source_message_id : Int
  starboard_channel_id : Int
  starboard_message_id : Int
  deriving DecidableEq

/-- Python truthiness of an optional integer argument (`if arg:`): false for
`None` and for `0`.  Discord snowflake ids are never `0`. -/
def pyTruthy (o : Option Int) : Bool :=
  match o with
  | none => false
  | some v => v != 0

/-- `StarboardMessage.get_all`: filter by guild, then by each truthy optional
column filter. -/
def StarboardMessage.get_all (db : List StarboardMessage) (guild_id : Int)
    (author_id source_channel_id source_message_id
     starboard_channel_id starboard_message_id : Option Int) :
    List StarboardMessage :=
  let q := db.filter (fun r => r.guild_id == guild_id)
  let q := if pyTruthy author_id then
    q.filter (fun r => some r.author_id == author_id) else q
  let q := if pyTruthy source_channel_id then
    q.filter (fun r => some r.source_channel_id == source_channel_id) else q
  let q := if pyTruthy source_message_id then
    q.filter (fun r => some r.source_message_id == source_message_id) else q
  let q := if pyTruthy starboard_channel_id then
    q.filter (fun r => some r.starboard_channel_id == starboard_channel_id) else q
  let q := if pyTruthy starboard_message_id then
    q.filter (fun r => some r.starboard_message_id == starboard_message_id) else q
  q

/-- Fresh autoincrement primary key for an appended row. -/
def freshIdx (idxs : List Int) : Int :=
  idxs.foldl max 0 + 1

/-- `StarboardMessage.add`: insert one repost row. -/
def StarboardMessage.add (db : List StarboardMessage)
    (guild_id author_id source_channel_id source_message_id
     starboard_channel_id starboard_message_id : Int) : List StarboardMessage :=
  db ++ [⟨freshIdx (db.map (fun r => r.idx)), guild_id, author_id, source_channel_id,
          source_message_id, starboard_channel_id, starboard_message_id⟩]

/-- Row of the `boards_starboard_channels` table: a configured
source-channel → starboard-channel mapping with its reaction threshold. -/
structure StarboardChannel where
  idx : Int
  guild_id : Int
  source_channel_id : Int
  starboard_channel_id : Int
  limit : Int
  deriving DecidableEq

/-- SQLAlchemy `Query.one_or_none()`: `None` for no row, the row when unique,
raises `MultipleResultsFound` otherwise. -/
def one_or_none (l : List StarboardChannel) : Except String (Option StarboardChannel) :=
  match l with
  | [] => Except.ok none
  | [a] => Except.ok (some a)
  | _ => Except.error "MultipleResultsFound"

/-- `StarboardChannel.get`: note that the source never applies the
`guild_id` argument as a filter — only the (truthy) `source_channel_id` —
and finishes with `one_or_none`. -/
def StarboardChannel.get (db : List StarboardChannel)
    (source_channel_id : Option Int) : Except String (Option StarboardChannel) :=
  let q := db
  let q := if pyTruthy source_channel_id then
    q.filter (fun r => some r.source_channel_id == source_channel_id) else q
  one_or_none q

/-- `StarboardChannel.check_unique`: true iff `channel_id` is used neither as
source nor as starboard channel in the guild (`query.first() is None`). -/
def StarboardChannel.check_unique (db : List StarboardChannel)
    (guild_id channel_id : Int) : Bool :=
  ((db.filter (fun r => r.guild_id == guild_id &&
      (r.source_channel_id == channel_id || r.starboard_channel_id == channel_id))).head?).isNone

/-- `StarboardChannel.set`: update the limit of the row matching all three
ids, or append a new row. -/
def StarboardChannel.set (db : List StarboardChannel)
    (guild_id source_channel_id starboard_channel_id lim : Int) :
    Except String (List StarboardChannel) :=
  match one_or_none (db.filter (fun r => r.guild_id == guild_id &&
      r.source_channel_id == source_channel_id &&
      r.starboard_channel_id == starboard_channel_id)) with
  | Except.error e => Except.error e
  | Except.ok none =>
    Except.ok (db ++ [⟨freshIdx (db.map (fun r => r.idx)), guild_id,
      source_channel_id, starboard_channel_id, lim⟩])
  | Except.ok (some row) =>
    Except.ok (db.map (fun r => if r == row then
      ⟨r.idx, r.guild_id, r.source_channel_id, r.starboard_channel_id, lim⟩ else r))

/-- Outcome of the `starboardadmin set` command. -/
inductive SetResult where
  | rejectedLimit
  | rejectedSourceUsed
  | rejectedStarboardIsSource
  | accepted
  deriving DecidableEq

/-- `Starboard.starboard_admin_set` (`starboard/module.py`, lines 131-180):
reject a non-positive limit, reject a source channel already used as source
or starboard in the guild, reject a starboard channel already used as a
source, otherwise persist the configuration. -/
def starboard_admin_set (db : List StarboardChannel)
    (guild_id source_id starboard_id lim : Int) :
    Except String (SetResult × List StarboardChannel) :=
  if lim ≤ 0 then Except.ok (SetResult.rejectedLimit, db)
  else if !(StarboardChannel.check_unique db guild_id source_id) then
    Except.ok (SetResult.rejectedSourceUsed, db)
  else
    match StarboardChannel.get db (some starboard_id) with
    | Except.error e => Except.error e
    | Except.ok (some _) => Except.ok (SetResult.rejectedStarboardIsSource, db)
    | Except.ok none =>
      match StarboardChannel.set db guild_id source_id starboard_id lim with
      | Except.error e => Except.error e
      | Except.ok db2 => Except.ok (SetResult.accepted, db2)

/-- The configuration invariant of the spec, per guild: no channel id is
registered simultaneously as a source channel and as a starboard (target)
channel. -/
def noSourceTargetOverlap (db : List StarboardChannel) : Bool :=
  db.all (fun r => db.all (fun r2 =>
    !(r.guild_id == r2.guild_id && r.source_channel_id == r2.starboard_channel_id)))

/-- The reaction state of one fetched Discord message as used by the
duplicate check: the list of its reactions, each an emoji together with the
ids of the users who placed it. -/
abbrev MsgView := List (Int × List Int)

/-- `Starboard._check_duplicate` (`starboard/module.py`, lines 479-501):
true iff some related message carries the same emoji reacted by the same
user. -/
def check_duplicate (emoji user_id : Int) (dc_messages : List MsgView) : Bool :=
  dc_messages.any (fun msg => msg.any (fun er =>
    er.fst == emoji && er.snd.contains user_id))

/-- `Starboard._get_related_messages` (`starboard/module.py`, lines
503-553): fetch the original message, then every starboard copy sharing the
source message id except the row `sb` itself; a fetch that raises is logged
and the message is left out of the result. -/
def get_related_messages (db : List StarboardMessage)
    (fetch : Int → Int → Option MsgView) (sb : StarboardMessage) :
    List MsgView :=
  let sb_messages := StarboardMessage.get_all db sb.guild_id
    none none (some sb.source_message_id) none none
  (fetch sb.source_channel_id sb.source_message_id).toList ++
    (sb_messages.filter (fun m => m.idx != sb.idx)).filterMap
      (fun m => fetch m.starboard_channel_id m.starboard_message_id)

/-- Where `Starboard._proxy_karma` exited, and — when it reached the karma
call — which call it created. -/
inductive ProxyOutcome where
  | noMessages
  | karmaNotLoaded
  | duplicate
  | selfReaction
  | zeroValue
  | relayNotAwaited (added : Bool) (guild_id msg_author_id react_author_id emoji_value : Int)
  deriving DecidableEq

/-- `Starboard._proxy_karma` (`starboard/module.py`, lines 426-477).  The
lookups, the duplicate check and the guards follow the source.  At the end
the source invokes the coroutine functions `karma.reaction_added` /
`karma.reaction_removed` WITHOUT `await`: the coroutine object is created
and discarded, its body never runs, so the karma caches are returned
unchanged even on the relay path. -/
def proxy_karma (db : List StarboardMessage) (fetch : Int → Int → Option MsgView)
    (karmaLoaded : Bool) (emoji_value_of : Int → Int)
    (guild_id message_id user_id emoji : Int) (added : Bool)
    (c : KarmaCaches) : ProxyOutcome × KarmaCaches :=
  let sb_messages := StarboardMessage.get_all db guild_id
    none none none none (some message_id)
  let source_messages := StarboardMessage.get_all db guild_id
    none none (some message_id) none none
  match sb_messages ++ source_messages with
  | [] => (ProxyOutcome.noMessages, c)
  | message :: _ =>
    if !karmaLoaded then (ProxyOutcome.karmaNotLoaded, c)
    else if check_duplicate emoji user_id (get_related_messages db fetch message) then
      (ProxyOutcome.duplicate, c)
    else if message.author_id == user_id then (ProxyOutcome.selfReaction, c)
    else
      let emoji_value := emoji_value_of emoji
      if emoji_value == 0 then (ProxyOutcome.zeroValue, c)
      else
        (ProxyOutcome.relayNotAwaited added guild_id message.author_id user_id emoji_value, c)

/-- One distinct reaction type of a fetched message, as iterated by the
repost loop of `Starboard._process_reaction`. -/
structure MsgReaction where
  emoji : Int
  count : Nat
  deriving DecidableEq

/-- The repost loop of `Starboard._process_reaction` (`starboard/module.py`,
lines 593-614): skip reaction types below the channel limit, skip types
with karma value below 1 when the Karma cog is loaded, repost on the first
remaining type and stop.  Returns the reaction types for which
`_repost_message` was invoked. -/
def evaluate_reactions (karmaLoaded : Bool) (emoji_value_of : Int → Int)
    (lim : Int) : List MsgReaction → List MsgReaction
  | [] => []
  | r :: rs =>
    if (r.count : Int) < lim then evaluate_reactions karmaLoaded emoji_value_of lim rs
    else if karmaLoaded && emoji_value_of r.emoji < 1 then
      evaluate_reactions karmaLoaded emoji_value_of lim rs
    else [r]

/-- Exit taken by `Starboard._process_reaction`.  The two error outcomes
model exceptions raised after the message id was inserted into the
in-flight list: `channelLookupError` is `one_or_none` raising during the
channel lookup, and `noChannelAttributeError` is `sb_db_channel.limit`
evaluated on `None` when the channel has no configuration row — an access
that sits inside the loop body, so it only fires on the first iteration,
i.e. when the fetched message has at least one reaction; neither is caught
by the handler, so the exception propagates. -/
inductive ProcessOutcome where
  | alreadyInFlight
  | alreadyReposted
  | fetchFailed
  | channelLookupError
  | noChannelAttributeError
  | evaluated (reposted : List MsgReaction)
  deriving DecidableEq

/-- `Starboard._process_reaction` (`starboard/module.py`, lines 555-616).
State threaded through is the `_reaction_processing` list; `fetched` is the
oracle for `utils.discord.get_message` (`none` = raised or returned
nothing, which the source catches).  Only the fetch is inside a
try/except: on the two later error outcomes the id is NOT removed from the
in-flight list.  When the channel row is missing, `sb_db_channel.limit` is
only reached inside the loop over `message.reactions` (module.py line
596): with an empty reaction list the loop body never runs, the handler
falls through to the removal at line 616 and returns normally. -/
def process_reaction (procSet : List Int) (msgDb : List StarboardMessage)
    (chanDb : List StarboardChannel) (guild_id channel_id message_id : Int)
    (fetched : Option (List MsgReaction)) (karmaLoaded : Bool)
    (emoji_value_of : Int → Int) : ProcessOutcome × List Int :=
  if message_id ∈ procSet then (ProcessOutcome.alreadyInFlight, procSet)
  else if !(StarboardMessage.get_all msgDb guild_id
      none none (some message_id) none none).isEmpty then
    (ProcessOutcome.alreadyReposted, procSet)
  else
    let ps := procSet ++ [message_id]
    match fetched with
    | none => (ProcessOutcome.fetchFailed, ps.erase message_id)
    | some reactions =>
      match StarboardChannel.get chanDb (some channel_id) with
      | Except.error _ => (ProcessOutcome.channelLookupError, ps)
      | Except.ok none =>
        match reactions with
        | [] => (ProcessOutcome.evaluated [], ps.erase message_id)
        | _ :: _ => (ProcessOutcome.noChannelAttributeError, ps)
      | Except.ok (some sb_db_channel) =>
        (ProcessOutcome.evaluated
          (evaluate_reactions karmaLoaded emoji_value_of sb_db_channel.limit reactions),
         ps.erase message_id)

/-- `Starboard._send_messages` (`starboard/module.py`, lines 690-746):
`primary` / `secondary` are the ids of the messages the two `channel.send`
calls returned, `none` meaning the send raised.  A failed primary send is
caught and the function returns the empty list; a failed secondary send is
caught inside `_send_secondary`. -/
def send_messages (primary secondary : Option Int) : List Int :=
  match primary with
  | none => []
  | some p => p :: secondary.toList

/-- `Starboard._repost_message` (`starboard/module.py`, lines 618-644):
resolve the starboard channel (`none` = not found, logged and dropped),
send the messages and add one `StarboardMessage` row per message actually
sent. -/
def repost_message (db : List StarboardMessage) (channel : Option Int)
    (primary secondary : Option Int)
    (guild_id author_id source_channel_id source_message_id : Int) :
    List StarboardMessage :=
  match channel with
  | none => db
  | some ch =>
    (send_messages primary secondary).foldl
      (fun d mid => StarboardMessage.add d guild_id author_id
        source_channel_id source_message_id ch mid) db

/-- Program counter of one `_process_reaction` invocation, at the
granularity of its suspension points: the locked check-and-insert block
(`start`), the awaited message fetch plus threshold loop (`fetchEval`),
the removal of the in-flight marker (`cleanup`), and return (`finished`). -/
inductive HandlerPhase where
  | start
  | fetchEval
  | cleanup
  | finished
  deriving DecidableEq, Fintype

/-- Joint state of two concurrently delivered reaction-add handlers A and B
for the same message: their program counters, whether the message id is in
`_reaction_processing` (`inFlight`), whether a `StarboardMessage` row
exists (`recorded`), and whether each handler has performed the
fetch-and-threshold evaluation. -/
structure FlightState where
  pcA : HandlerPhase
  pcB : HandlerPhase
  inFlight : Bool
  recorded : Bool
  fetchedA : Bool
  fetchedB : Bool
  deriving DecidableEq, Fintype

/-- A handler is mid-processing between its successful check-and-insert and
its marker removal. -/
def handler_phase_active (pc : HandlerPhase) : Bool :=
  pc == HandlerPhase.fetchEval || pc == HandlerPhase.cleanup

/-- One atomic step of a single handler: the gate (executed under
`_reaction_lock`: return if the id is in the list or a row exists, else
insert the id), the fetch-and-threshold evaluation (`thresholdMet` tells
whether it reposts, creating a row), and the marker removal. -/
def handler_step (thresholdMet : Bool) (pc : HandlerPhase)
    (inFlight recorded fetched : Bool) : HandlerPhase × Bool × Bool × Bool :=
  match pc with
  | HandlerPhase.start =>
    if inFlight || recorded then (HandlerPhase.finished, inFlight, recorded, fetched)
    else (HandlerPhase.fetchEval, true, recorded, fetched)
  | HandlerPhase.fetchEval => (HandlerPhase.cleanup, inFlight, recorded || thresholdMet, true)
  | HandlerPhase.cleanup => (HandlerPhase.finished, false, recorded, fetched)
  | HandlerPhase.finished => (HandlerPhase.finished, inFlight, recorded, fetched)

/-- Scheduler step: `isA` chooses which handler runs its next atomic step. -/
def flight_step (thresholdMet : Bool) (s : FlightState) (isA : Bool) : FlightState :=
  if isA then
    match handler_step thresholdMet s.pcA s.inFlight s.recorded s.fetchedA with
    | (pc, f, r, fe) => ⟨pc, s.pcB, f, r, fe, s.fetchedB⟩
  else
    match handler_step thresholdMet s.pcB s.inFlight s.recorded s.fetchedB with
    | (pc, f, r, fe) => ⟨s.pcA, pc, f, r, s.fetchedA, fe⟩

/-- Run an interleaving: each schedule entry says which handler steps. -/
def flight_run (thresholdMet : Bool) (s : FlightState) (sched : List Bool) : FlightState :=
  sched.foldl (flight_step thresholdMet) s

/-- Both handlers start on an un-reposted message whose id is not in the
in-flight list. -/
def flight_init : FlightState :=
  ⟨HandlerPhase.start, HandlerPhase.start, false, false, false, false⟩

/-- Mutual-exclusion invariant of the in-flight list: the id is in the list
exactly while one handler is mid-processing, and never two at once. -/
def flight_inv (s : FlightState) : Bool :=
  (s.inFlight == (handler_phase_active s.pcA || handler_phase_active s.pcB)) &&
    !(handler_phase_active s.pcA && handler_phase_active s.pcB)

/-- Empty karma caches, the state right after a flush. -/
def emptyCaches : KarmaCaches := ⟨[], [], []⟩

/-- Concrete repost row: guild 1, author A = 2, message M = 50 in channel
10, repost copy M' = 100 in starboard channel 20. -/
def sbRowM : StarboardMessage := ⟨1, 1, 2, 10, 50, 20, 100⟩

/-- Database holding exactly the repost row of M. -/
def sbDbM : List StarboardMessage := [sbRowM]

/-- Fetch oracle: the original message M carries one 👍 (emoji 7) by user 4;
the reactor E = 3 has not reacted to any other related message. -/
def fetchNoDup : Int → Int → Option MsgView :=
  fun ch m => if ch == 10 && m == 50 then some [(7, [4])] else none

/-- Fetch oracle: the original message M already carries the reactor's own
👍 (emoji 7 by user 3). -/
def fetchWithDup : Int → Int → Option MsgView :=
  fun ch m => if ch == 10 && m == 50 then some [(7, [3])] else none

/-- Emoji valuation: 👍 (emoji 7) has karma value +1, everything else 0. -/
def thumbsValuation : Int → Int :=
  fun e => if e == 7 then 1 else 0

/-- Store oracle that raises on the entry for member (1, 1) and succeeds on
every other entry. -/
def failing_first_store : StoreOp → Bool :=
  fun op => op.key != ((1 : Int), (1 : Int))

/-- Snapshot with two pending value deltas, the first of which will hit the
failing store entry. -/
def snapshotTwo : KarmaCaches :=
  ⟨[(((1 : Int), (1 : Int)), 2), (((2 : Int), (2 : Int)), 3)], [], []⟩

/-- C10: in the karma cog's direct reaction path, every event that reaches
the cache-update call (emoji karma value nonzero, channel not ignored and
message successfully fetched) raises TypeError — the keyword arguments
passed by `Karma._process_reaction` do not bind to the signatures of
`reaction_added` / `reaction_removed` (`guild_id` is omitted on the add
path; the remove path uses `message_author` / `reaction_author`) — and all
three karma caches are left unchanged. -/
theorem karma_direct_path_raises_type_error
    (emoji_value author user_id : Int) (added : Bool) (c : KarmaCaches)
    (h : emoji_value ≠ 0) :
    karma_process_reaction false emoji_value (some author) user_id added c
      = (KarmaEventOutcome.typeError, c) := by
  have hv : (emoji_value == 0) = false := by
    simpa using h
  have ha : call_reaction_added
      [("msg_author_id", author), ("react_author_id", user_id),
       ("emoji_value", emoji_value)] c = Except.error "TypeError" := rfl
  have hr : call_reaction_removed
      [("message_author", author), ("reaction_author", user_id),
       ("emoji_value", emoji_value)] c = Except.error "TypeError" := rfl
  cases added <;> simp [karma_process_reaction, hv, ha, hr]

/-- Witness for C10 at a concrete event: emoji value 1, author 2, reactor 3. -/
theorem karma_direct_path_type_error_witness :
    (1 : Int) ≠ 0 ∧
      karma_process_reaction false 1 (some 2) 3 true emptyCaches
        = (KarmaEventOutcome.typeError, emptyCaches) :=
  ⟨by decide, karma_direct_path_raises_type_error 1 2 3 true emptyCaches (by decide)⟩

/-- C1: code bug.  User E = 3 adds 👍 (value +1) to the repost copy M' = 100
of a message authored by A = 2; the reaction is not a duplicate in the
related-message group.  `_proxy_karma` reaches the relay call site — but the
source invokes the coroutine function `karma.reaction_added` without
`await`, so the caches stay unchanged; had the call been awaited,
`reaction_added` would have added +1 to A's value accumulator and +1 to
E's given accumulator, which is what the claim (and the spec's scenario)
requires. -/
theorem starboard_relay_call_created_but_caches_unchanged :
    proxy_karma sbDbM fetchNoDup true thumbsValuation 1 100 3 7 true emptyCaches
        = (ProxyOutcome.relayNotAwaited true 1 2 3 1, emptyCaches) ∧
      reaction_added 1 2 3 1 emptyCaches
        = ⟨[(((1 : Int), (2 : Int)), 1)], [(((1 : Int), (3 : Int)), 1)], []⟩ := by
  constructor <;> rfl

/-- C6 counterexample: with a store that raises on member (1, 1), a flush of
a snapshot holding deltas for (1, 1) and (2, 2) persists nothing and fails —
the entry for (2, 2) is aborted rather than still persisted, contradicting
the claim. -/
theorem flush_store_error_aborts_remaining_entries :
    karma_cache_save_run failing_first_store snapshotTwo
        = (([], Except.error ()), (⟨[], [], []⟩ : KarmaCaches)) ∧
      (karma_cache_save snapshotTwo).fst
        = [⟨((1 : Int), (1 : Int)), KarmaField.value, 2⟩,
           ⟨((2 : Int), (2 : Int)), KarmaField.value, 3⟩] := by
  constructor <;> rfl

/-- C8: when sending the repost (primary) message to the target channel
fails, `_send_messages` returns the empty list, `_repost_message` adds no
`StarboardMessage` row, and a later lookup by source message id yields the
same result as before — so a later qualifying reaction event passes the
already-reposted gate and can attempt the repost again. -/
theorem failed_send_creates_no_repost_record
    (db : List StarboardMessage) (ch : Int) (secondary : Option Int)
    (guild_id author_id source_channel_id source_message_id : Int) :
    repost_message db (some ch) none secondary
        guild_id author_id source_channel_id source_message_id = db ∧
      StarboardMessage.get_all
        (repost_message db (some ch) none secondary
          guild_id author_id source_channel_id source_message_id)
        guild_id none none (some source_message_id) none none
      = StarboardMessage.get_all db guild_id none none (some source_message_id) none none := by
  constructor <;> rfl

/-- C4 counterexample: two reaction-add events on the same un-reposted
message, with the first handler running to completion (threshold not met,
so no repost row is created) before the second starts.  Both handlers
perform the fetch-and-threshold evaluation, contradicting "exactly one". -/
theorem both_handlers_fetch_in_serialized_interleaving :
    (flight_run false flight_init [true, true, true, false, false, false]).fetchedA = true ∧
      (flight_run false flight_init [true, true, true, false, false, false]).fetchedB = true ∧
      (flight_run false flight_init [true, true, true, false, false, false]).pcA
        = HandlerPhase.finished ∧
      (flight_run false flight_init [true, true, true, false, false, false]).pcB
        = HandlerPhase.finished := by
  decide

/-- C5 counterexample: an invocation that inserts message id 50, fetches a
message carrying one reaction (emoji 7, count 1), and then raises — the
channel configuration row is missing, so the first loop iteration evaluates
`sb_db_channel.limit` on `None` and raises AttributeError — returns with
50 still in the in-flight list. -/
theorem inflight_marker_left_on_attribute_error :
    process_reaction [] [] [] 1 10 50 (some [⟨7, 1⟩]) false thumbsValuation
        = (ProcessOutcome.noChannelAttributeError, [50]) ∧
      (50 : Int) ∈
        (process_reaction [] [] [] 1 10 50 (some [⟨7, 1⟩]) false thumbsValuation).snd := by
  constructor
  · rfl
  · decide

/-- C9 counterexample: on an empty configuration, `starboardadmin set` with
the same channel 5 as source and starboard is accepted and creates a row in
which channel 5 is simultaneously a source and a target — the request is
not rejected, contradicting the claim. -/
theorem self_pair_config_accepted_breaks_overlap_invariant :
    starboard_admin_set [] 1 5 5 3
        = Except.ok (SetResult.accepted, [⟨1, 1, 5, 5, 3⟩]) ∧
      noSourceTargetOverlap [⟨1, 1, 5, 5, 3⟩] = false := by
  constructor <;> rfl

/-- Characterization of running the flush increments against a fallible
store: the persisted entries are exactly the prefix before the first
failing entry, and the flush fails iff some entry fails. -/
theorem run_store_ops_spec (ok : StoreOp → Bool) (l : List StoreOp) :
    run_store_ops ok l
      = (l.takeWhile ok, if l.all ok then Except.ok () else Except.error ()) := by
  induction l with
  | nil => rfl
  | cons op rest ih =>
    by_cases h : ok op
    · simp [run_store_ops, h, ih, List.takeWhile_cons, List.all_cons]
    · simp [run_store_ops, h, List.takeWhile_cons, List.all_cons]

/-- C6 amended: during a flush against a fallible store, the entries
persisted are exactly those before the first failing entry of the taken
snapshot; the first store error aborts the remaining entries and the
exception propagates out of the flush (while the caches were already
cleared, so the unpersisted deltas are lost). -/
theorem flush_persists_prefix_until_first_error (ok : StoreOp → Bool) (c : KarmaCaches) :
    karma_cache_save_run ok c
      = (((karma_cache_save c).fst.takeWhile ok,
          if (karma_cache_save c).fst.all ok then Except.ok () else Except.error ()),
         (⟨[], [], []⟩ : KarmaCaches)) := by
  simp [karma_cache_save_run, run_store_ops_spec]

/-- C3: for any reaction add or remove event that reaches `_proxy_karma`
(the reacted message heads a related-message group), if the duplicate check
finds the same reactor with the same reaction type on one of the other
(successfully fetched) messages of the group, the karma relay is
suppressed: the handler exits at the duplicate check and no karma
accumulator is changed. -/
theorem duplicate_reaction_suppresses_karma_relay
    (db : List StarboardMessage) (fetch : Int → Int → Option MsgView)
    (emoji_value_of : Int → Int) (guild_id message_id user_id emoji : Int)
    (added : Bool) (c : KarmaCaches)
    (message : StarboardMessage) (rest : List StarboardMessage)
    (hmsgs : StarboardMessage.get_all db guild_id none none none none (some message_id) ++
        StarboardMessage.get_all db guild_id none none (some message_id) none none
      = message :: rest)
    (hdup : check_duplicate emoji user_id (get_related_messages db fetch message) = true) :
    proxy_karma db fetch true emoji_value_of guild_id message_id user_id emoji added c
      = (ProxyOutcome.duplicate, c) := by
  simp only [proxy_karma]
  rw [hmsgs]
  simp [hdup]

/-- Witness for C3: user 3 reacts with 👍 on the repost copy M' = 100 while
their 👍 is already on the original M = 50; the relay is suppressed and the
caches are untouched. -/
theorem duplicate_reaction_suppression_witness :
    proxy_karma sbDbM fetchWithDup true thumbsValuation 1 100 3 7 true emptyCaches
      = (ProxyOutcome.duplicate, emptyCaches) :=
  duplicate_reaction_suppresses_karma_relay sbDbM fetchWithDup thumbsValuation
    1 100 3 7 true emptyCaches sbRowM [] rfl rfl

/-- C7: the repost loop triggers the repost exactly for the first reaction
type whose count reaches the channel limit and whose karma value is
positive when the Karma cog is loaded, and evaluates nothing after it; when
no reaction type qualifies it triggers no repost at all.  At most one
repost is performed per evaluation. -/
theorem repost_fires_once_on_first_qualifying_reaction
    (karmaLoaded : Bool) (emoji_value_of : Int → Int) (lim : Int)
    (rs : List MsgReaction) :
    evaluate_reactions karmaLoaded emoji_value_of lim rs
        = (rs.find? (fun r => decide (lim ≤ (r.count : Int)) &&
            (!karmaLoaded || decide (0 < emoji_value_of r.emoji)))).toList ∧
      (evaluate_reactions karmaLoaded emoji_value_of lim rs).length ≤ 1 := by
  have hmain : evaluate_reactions karmaLoaded emoji_value_of lim rs
      = (rs.find? (fun r => decide (lim ≤ (r.count : Int)) &&
          (!karmaLoaded || decide (0 < emoji_value_of r.emoji)))).toList := by
    induction rs with
    | nil => rfl
    | cons r rest ih =>
      by_cases h1 : (r.count : Int) < lim
      · have hp : (decide (lim ≤ (r.count : Int)) &&
            (!karmaLoaded || decide (0 < emoji_value_of r.emoji))) = false := by
          have : ¬(lim ≤ (r.count : Int)) := by omega
          simp [this]
        simp [evaluate_reactions, h1, List.find?_cons, hp, ih]
      · by_cases h2 : karmaLoaded && decide (emoji_value_of r.emoji < 1)
        · have hk : karmaLoaded = true := by
            cases karmaLoaded <;> simp_all
          have hv : emoji_value_of r.emoji < 1 := by
            cases hvv : decide (emoji_value_of r.emoji < 1) <;> simp_all
          have hp : (decide (lim ≤ (r.count : Int)) &&
              (!karmaLoaded || decide (0 < emoji_value_of r.emoji))) = false := by
            have : ¬(0 < emoji_value_of r.emoji) := by omega
            simp [hk, this]
          have hloop : (karmaLoaded && emoji_value_of r.emoji < 1) = true := by
            simp [hk, hv]
          simp [evaluate_reactions, h1, hloop, List.find?_cons, hp, ih]
        · have hp : (decide (lim ≤ (r.count : Int)) &&
              (!karmaLoaded || decide (0 < emoji_value_of r.emoji))) = true := by
            have hle : lim ≤ (r.count : Int) := by omega
            cases hk : karmaLoaded
            · simp [hle]
            · have hv : ¬(emoji_value_of r.emoji < 1) := by
                intro hcon
                exact h2 (by simp [hk, hcon])
              have : 0 < emoji_value_of r.emoji := by omega
              simp [hle, this]
          have hloop : (karmaLoaded && emoji_value_of r.emoji < 1) = false := by
            cases hk : karmaLoaded
            · simp
            · have hv : ¬(emoji_value_of r.emoji < 1) := by
                intro hcon
                exact h2 (by simp [hk, hcon])
              simp [hv]
          simp [evaluate_reactions, h1, hloop, List.find?_cons, hp]
  refine ⟨hmain, ?_⟩
  rw [hmain]
  cases rs.find? (fun r => decide (lim ≤ (r.count : Int)) &&
      (!karmaLoaded || decide (0 < emoji_value_of r.emoji))) <;> simp

/-- Removing the freshly appended message id restores the original
in-flight list (Python `list.remove` drops the first occurrence). -/
theorem erase_append_self (l : List Int) (x : Int) (h : x ∉ l) :
    (l ++ [x]).erase x = l := by
  rw [List.erase_append_right _ (by simpa using h)]
  simp

/-- C5 amended: for an invocation whose message id is not already being
processed, the id is absent from the in-flight list on return exactly when
no exception escaped the handler: the success path (including a missing
channel row combined with an empty reaction list, where the loop body never
runs) and the caught fetch-failure path remove it, but an exception raised
between insertion and removal (channel-row lookup raising, or the
AttributeError from the first loop iteration touching the missing channel
row's limit) propagates with the id still in the list. -/
theorem inflight_marker_removed_iff_no_exception
    (procSet : List Int) (msgDb : List StarboardMessage)
    (chanDb : List StarboardChannel) (guild_id channel_id message_id : Int)
    (fetched : Option (List MsgReaction)) (karmaLoaded : Bool)
    (emoji_value_of : Int → Int) (out : ProcessOutcome) (ps : List Int)
    (h : message_id ∉ procSet)
    (heq : process_reaction procSet msgDb chanDb guild_id channel_id message_id
        fetched karmaLoaded emoji_value_of = (out, ps)) :
    (out = ProcessOutcome.channelLookupError ∨
      out = ProcessOutcome.noChannelAttributeError) ↔ message_id ∈ ps := by
  rw [process_reaction, if_neg h] at heq
  by_cases h2 : (StarboardMessage.get_all msgDb guild_id
      none none (some message_id) none none).isEmpty
  · rw [h2] at heq
    simp only [Bool.not_true, if_false] at heq
    cases fetched with
    | none =>
      simp only at heq
      rw [erase_append_self procSet message_id h] at heq
      cases heq
      simpa using h
    | some reactions =>
      simp only at heq
      cases hget : StarboardChannel.get chanDb (some channel_id) with
      | error e =>
        rw [hget] at heq
        simp only at heq
        cases heq
        simp
      | ok o =>
        cases o with
        | none =>
          rw [hget] at heq
          simp only at heq
          cases reactions with
          | nil =>
            rw [erase_append_self procSet message_id h] at heq
            cases heq
            simpa using h
          | cons r rest =>
            cases heq
            simp
        | some chanRow =>
          rw [hget] at heq
          simp only at heq
          rw [erase_append_self procSet message_id h] at heq
          cases heq
          simpa using h
  · have h2f : (StarboardMessage.get_all msgDb guild_id
        none none (some message_id) none none).isEmpty = false := by
      cases hie : (StarboardMessage.get_all msgDb guild_id
          none none (some message_id) none none).isEmpty
      · rfl
      · exact absurd hie h2
    rw [h2f] at heq
    simp only [Bool.not_false, if_true] at heq
    cases heq
    simp [h]

/-- Witness for C5 at a successful evaluation: the handler finishes with
outcome `evaluated` and message id 50 has been removed from the in-flight
list. -/
theorem inflight_marker_removed_witness :
    (ProcessOutcome.evaluated [⟨7, 5⟩] = ProcessOutcome.channelLookupError ∨
      ProcessOutcome.evaluated [⟨7, 5⟩] = ProcessOutcome.noChannelAttributeError) ↔
      (50 : Int) ∈ ([] : List Int) :=
  inflight_marker_removed_iff_no_exception [] [] [⟨1, 1, 10, 20, 2⟩] 1 10 50
    (some [⟨7, 5⟩]) false thumbsValuation (ProcessOutcome.evaluated [⟨7, 5⟩]) []
    (by decide) rfl

/-- An in-place dict addition for an absent key changes nothing. -/
theorem dictAdd_of_hasKey_eq_false (c : KarmaCache) (k : CacheKey) (d : Int)
    (h : hasKey c k = false) : dictAdd c k d = c := by
  induction c with
  | nil => rfl
  | cons p rest ih =>
    have h' : (p.fst == k) = false ∧ hasKey rest k = false := by
      have := h
      simp only [hasKey, List.any_cons, Bool.or_eq_false_iff] at this
      exact ⟨this.1, this.2⟩
    have hrest := ih h'.2
    simp only [dictAdd] at hrest
    simp only [dictAdd, List.map_cons, h'.1, hrest]
    simp

/-- Applying a delta to an absent key appends the key with that delta. -/
theorem apply_delta_of_hasKey_eq_false (c : KarmaCache) (k : CacheKey) (d : Int)
    (h : hasKey c k = false) : apply_delta c k d = c ++ [(k, d)] := by
  unfold apply_delta setdefault
  rw [if_neg (by simp [h])]
  unfold dictAdd
  rw [List.map_append]
  have hc : dictAdd c k d = c := dictAdd_of_hasKey_eq_false c k d h
  simp only [dictAdd] at hc
  rw [hc]
  simp

/-- Applying a delta when the key sits (only) at the end adds it in place. -/
theorem apply_delta_append (c : KarmaCache) (k : CacheKey) (v d : Int)
    (h : hasKey c k = false) :
    apply_delta (c ++ [(k, v)]) k d = c ++ [(k, v + d)] := by
  unfold apply_delta setdefault
  have hk : hasKey (c ++ [(k, v)]) k = true := by
    simp [hasKey]
  rw [if_pos hk]
  unfold dictAdd
  rw [List.map_append]
  have hc : dictAdd c k d = c := dictAdd_of_hasKey_eq_false c k d h
  simp only [dictAdd] at hc
  rw [hc]
  simp

/-- Folding a list of deltas over a cache whose only entry for `k` is the
final one accumulates their sum there. -/
theorem foldl_apply_delta_append (c : KarmaCache) (k : CacheKey)
    (h : hasKey c k = false) :
    ∀ (ds : List Int) (v : Int),
      ds.foldl (fun acc d => apply_delta acc k d) (c ++ [(k, v)])
        = c ++ [(k, v + ds.sum)] := by
  intro ds
  induction ds with
  | nil => intro v; simp
  | cons d rest ih =>
    intro v
    rw [List.foldl_cons, apply_delta_append c k v d h, ih (v + d)]
    simp [add_assoc]

/-- Value-column flush entries of keys other than `k` never pass the
filter for `k`. -/
theorem filter_value_ops_of_hasKey_eq_false (c : KarmaCache) (k : CacheKey)
    (h : hasKey c k = false) :
    ((c.map (fun p => (⟨p.fst, KarmaField.value, p.snd⟩ : StoreOp))).filter
      (fun op => op.key == k && op.field == KarmaField.value)) = [] := by
  induction c with
  | nil => rfl
  | cons p rest ih =>
    have h' : (p.fst == k) = false ∧ hasKey rest k = false := by
      have := h
      simp only [hasKey, List.any_cons, Bool.or_eq_false_iff] at this
      exact ⟨this.1, this.2⟩
    simp only [List.map_cons, List.filter_cons]
    rw [show ((⟨p.fst, KarmaField.value, p.snd⟩ : StoreOp).key == k &&
        (⟨p.fst, KarmaField.value, p.snd⟩ : StoreOp).field == KarmaField.value) = false by
      simp [h'.1]]
    simpa using ih h'.2

/-- Flush entries of the `given` accumulator never pass the value filter. -/
theorem filter_given_ops (g : KarmaCache) (k : CacheKey) :
    ((g.map (fun p => (⟨p.fst, KarmaField.given, p.snd⟩ : StoreOp))).filter
      (fun op => op.key == k && op.field == KarmaField.value)) = [] := by
  induction g with
  | nil => rfl
  | cons p rest ih =>
    simp only [List.map_cons, List.filter_cons]
    rw [show ((⟨p.fst, KarmaField.given, p.snd⟩ : StoreOp).key == k &&
        (⟨p.fst, KarmaField.given, p.snd⟩ : StoreOp).field == KarmaField.value) = false by
      simp]
    simpa using ih

/-- Flush entries of the `taken` accumulator never pass the value filter. -/
theorem filter_taken_ops (t : KarmaCache) (k : CacheKey) :
    ((t.map (fun p => (⟨p.fst, KarmaField.taken, p.snd⟩ : StoreOp))).filter
      (fun op => op.key == k && op.field == KarmaField.value)) = [] := by
  induction t with
  | nil => rfl
  | cons p rest ih =>
    simp only [List.map_cons, List.filter_cons]
    rw [show ((⟨p.fst, KarmaField.taken, p.snd⟩ : StoreOp).key == k &&
        (⟨p.fst, KarmaField.taken, p.snd⟩ : StoreOp).field == KarmaField.value) = false by
      simp]
    simpa using ih

/-- C2: for any nonempty sequence of deltas applied to the same scope key of
one accumulator between two flushes, the next flush performs exactly one
store increment for that key in that accumulator, equal to the arithmetic
sum of the sequence — not one increment per delta. -/
theorem flush_coalesces_deltas_into_single_increment
    (c g t : KarmaCache) (k : CacheKey) (ds : List Int)
    (hk : hasKey c k = false) (hne : ds ≠ []) :
    ((karma_cache_save
        ⟨ds.foldl (fun acc d => apply_delta acc k d) c, g, t⟩).fst.filter
      (fun op => op.key == k && op.field == KarmaField.value))
      = [⟨k, KarmaField.value, ds.sum⟩] := by
  obtain ⟨d, rest, rfl⟩ := List.exists_cons_of_ne_nil hne
  rw [List.foldl_cons, apply_delta_of_hasKey_eq_false c k d hk,
    foldl_apply_delta_append c k hk rest d]
  simp only [karma_cache_save, List.filter_append, List.map_append]
  rw [filter_value_ops_of_hasKey_eq_false c k hk, filter_given_ops g k,
    filter_taken_ops t k]
  simp [List.filter_cons]

/-- Witness for C2: three deltas +2, -1, +2 on key (1, 2) starting from an
empty value accumulator produce a single store increment of +3. -/
theorem flush_coalescing_witness :
    ((karma_cache_save
        ⟨[(2 : Int), (-1 : Int), (2 : Int)].foldl
            (fun acc d => apply_delta acc ((1 : Int), (2 : Int)) d) [],
          [(((1 : Int), (2 : Int)), 5)], []⟩).fst.filter
      (fun op => op.key == ((1 : Int), (2 : Int)) && op.field == KarmaField.value))
      = [⟨((1 : Int), (2 : Int)), KarmaField.value, [(2 : Int), (-1 : Int), (2 : Int)].sum⟩] :=
  flush_coalesces_deltas_into_single_increment [] [(((1 : Int), (2 : Int)), 5)] []
    ((1 : Int), (2 : Int)) [(2 : Int), (-1 : Int), (2 : Int)] rfl (by decide)

set_option maxRecDepth 4000 in
/-- One scheduler step preserves the mutual-exclusion invariant. -/
theorem flight_inv_step (tm c : Bool) (s : FlightState)
    (h : flight_inv s = true) : flight_inv (flight_step tm s c) = true := by
  revert tm c s h
  decide

/-- Any interleaving preserves the mutual-exclusion invariant. -/
theorem flight_inv_run (tm : Bool) (sched : List Bool) :
    ∀ s : FlightState, flight_inv s = true →
      flight_inv (flight_run tm s sched) = true := by
  induction sched with
  | nil => intro s h; exact h
  | cons c rest ih =>
    intro s h
    have hstep := flight_inv_step tm c s h
    simpa [flight_run] using ih (flight_step tm s c) hstep

set_option maxRecDepth 4000 in
/-- A finished handler B stays finished and keeps its fetch flag. -/
theorem flight_step_finishedB (tm c : Bool) (s : FlightState)
    (h : s.pcB = HandlerPhase.finished) :
    (flight_step tm s c).pcB = HandlerPhase.finished ∧
      (flight_step tm s c).fetchedB = s.fetchedB := by
  revert tm c s h
  decide

set_option maxRecDepth 4000 in
/-- A finished handler A stays finished and keeps its fetch flag. -/
theorem flight_step_finishedA (tm c : Bool) (s : FlightState)
    (h : s.pcA = HandlerPhase.finished) :
    (flight_step tm s c).pcA = HandlerPhase.finished ∧
      (flight_step tm s c).fetchedA = s.fetchedA := by
  revert tm c s h
  decide

/-- Handler B's fetch flag is frozen once it finished. -/
theorem flight_fetchedB_frozen (tm : Bool) (sched : List Bool) :
    ∀ s : FlightState, s.pcB = HandlerPhase.finished →
      (flight_run tm s sched).fetchedB = s.fetchedB := by
  induction sched with
  | nil => intro s _; rfl
  | cons c rest ih =>
    intro s h
    have hstep := flight_step_finishedB tm c s h
    have := ih (flight_step tm s c) hstep.1
    simpa [flight_run, hstep.2] using this

/-- Handler A's fetch flag is frozen once it finished. -/
theorem flight_fetchedA_frozen (tm : Bool) (sched : List Bool) :
    ∀ s : FlightState, s.pcA = HandlerPhase.finished →
      (flight_run tm s sched).fetchedA = s.fetchedA := by
  induction sched with
  | nil => intro s _; rfl
  | cons c rest ih =>
    intro s h
    have hstep := flight_step_finishedA tm c s h
    have := ih (flight_step tm s c) hstep.1
    simpa [flight_run, hstep.2] using this

set_option maxRecDepth 4000 in
/-- C4 amended: the in-flight list gives mutual exclusion, not global
single-flight.  In every interleaving of the two handlers at most one is in
the fetch-and-threshold phase at any time; a handler whose locked
check-and-insert runs while the other is mid-processing exits immediately,
leaving the in-flight list, the repost record and its fetch flag untouched,
and never performs the fetch afterwards.  (When the first handler completes
without reposting before the second's check runs, the second also fetches —
see the counterexample.) -/
theorem single_flight_mutual_exclusion :
    (∀ tm : Bool, ∀ sched : List Bool,
        flight_inv (flight_run tm flight_init sched) = true) ∧
      (∀ tm : Bool, ∀ s : FlightState, flight_inv s = true →
        s.pcB = HandlerPhase.start → handler_phase_active s.pcA = true →
        flight_step tm s false
          = ⟨s.pcA, HandlerPhase.finished, s.inFlight, s.recorded, s.fetchedA, s.fetchedB⟩) ∧
      (∀ tm : Bool, ∀ s : FlightState, flight_inv s = true →
        s.pcA = HandlerPhase.start → handler_phase_active s.pcB = true →
        flight_step tm s true
          = ⟨HandlerPhase.finished, s.pcB, s.inFlight, s.recorded, s.fetchedA, s.fetchedB⟩) ∧
      (∀ tm : Bool, ∀ sched : List Bool, ∀ s : FlightState,
        s.pcB = HandlerPhase.finished →
        (flight_run tm s sched).fetchedB = s.fetchedB) ∧
      (∀ tm : Bool, ∀ sched : List Bool, ∀ s : FlightState,
        s.pcA = HandlerPhase.finished →
        (flight_run tm s sched).fetchedA = s.fetchedA) := by
  refine ⟨?_, by decide, by decide, ?_, ?_⟩
  · intro tm sched
    exact flight_inv_run tm sched flight_init (by decide)
  · intro tm sched s h
    exact flight_fetchedB_frozen tm sched s h
  · intro tm sched s h
    exact flight_fetchedA_frozen tm sched s h

/-- Witness for C4 amended: a concrete overlapping interleaving satisfies
the invariant, and the gate of handler B taken while A is mid-fetch makes B
finish immediately without fetching. -/
theorem single_flight_mutual_exclusion_witness :
    flight_inv (flight_run false flight_init [true, false, true, false, true, false]) = true ∧
      flight_step false
          ⟨HandlerPhase.fetchEval, HandlerPhase.start, true, false, false, false⟩ false
        = ⟨HandlerPhase.fetchEval, HandlerPhase.finished, true, false, false, false⟩ :=
  ⟨single_flight_mutual_exclusion.1 false [true, false, true, false, true, false],
    single_flight_mutual_exclusion.2.1 false
      ⟨HandlerPhase.fetchEval, HandlerPhase.start, true, false, false, false⟩
      (by decide) rfl rfl⟩

/-- The per-guild source/target overlap invariant, spelled out. -/
theorem noSourceTargetOverlap_iff (db : List StarboardChannel) :
    noSourceTargetOverlap db = true ↔
      ∀ r ∈ db, ∀ r2 ∈ db,
        ¬(r.guild_id = r2.guild_id ∧ r.source_channel_id = r2.starboard_channel_id) := by
  simp only [noSourceTargetOverlap, List.all_eq_true, Bool.not_eq_true',
    Bool.and_eq_false_iff, beq_eq_false_iff_ne, ne_eq, not_and]
  constructor
  · intro h r hr r2 hr2 hg
    rcases h r hr r2 hr2 with h1 | h1
    · exact absurd hg h1
    · exact h1
  · intro h r hr r2 hr2
    by_cases hg : r.guild_id = r2.guild_id
    · exact Or.inr (h r hr r2 hr2 hg)
    · exact Or.inl hg

/-- Reading `check_unique`: the channel is used neither as source nor as
starboard channel by any row of the guild. -/
theorem check_unique_iff (db : List StarboardChannel) (g ch : Int) :
    StarboardChannel.check_unique db g ch = true ↔
      ∀ r ∈ db, r.guild_id = g →
        r.source_channel_id ≠ ch ∧ r.starboard_channel_id ≠ ch := by
  simp [StarboardChannel.check_unique, Option.isNone_iff_eq_none,
    List.head?_eq_none_iff, List.filter_eq_nil_iff, not_or, not_and]

/-- `one_or_none` answers `none` only on the empty result list. -/
theorem one_or_none_ok_none (q : List StarboardChannel)
    (h : one_or_none q = Except.ok none) : q = [] := by
  cases q with
  | nil => rfl
  | cons a tail => cases tail <;> simp [one_or_none] at h

/-- Reading a `none` answer of `StarboardChannel.get`: for a truthy channel
id no row anywhere uses it as source; for channel id 0 the whole table is
empty. -/
theorem get_ok_none_sources (db : List StarboardChannel) (t : Int)
    (h : StarboardChannel.get db (some t) = Except.ok none) :
    (t ≠ 0 → ∀ r ∈ db, r.source_channel_id ≠ t) ∧ (t = 0 → db = []) := by
  unfold StarboardChannel.get at h
  by_cases ht : t = 0
  · subst ht
    simp [pyTruthy] at h
    exact ⟨fun hcon => absurd rfl hcon, fun _ => one_or_none_ok_none db h⟩
  · have htr : pyTruthy (some t) = true := by simp [pyTruthy, ht]
    rw [htr] at h
    simp only [if_true] at h
    have hnil := one_or_none_ok_none _ h
    rw [List.filter_eq_nil_iff] at hnil
    refine ⟨fun _ r hr => ?_, fun hcon => absurd hcon ht⟩
    have := hnil r hr
    simpa using this

/-- C9 amended: a successful `starboardadmin set` whose source and starboard
channels are distinct preserves the per-guild invariant that no channel id
is simultaneously a source and a starboard channel (the source-in-use and
starboard-used-as-source checks cover every other case); a request naming
the same channel for both roles is, however, accepted and violates the
invariant — see the counterexample. -/
theorem admin_set_preserves_overlap_for_distinct_channels
    (db : List StarboardChannel) (g s t l : Int) (res : SetResult)
    (db2 : List StarboardChannel)
    (hinv : noSourceTargetOverlap db = true) (hst : s ≠ t)
    (heq : starboard_admin_set db g s t l = Except.ok (res, db2)) :
    noSourceTargetOverlap db2 = true := by
  rw [starboard_admin_set] at heq
  split at heq
  · simp only [Except.ok.injEq, Prod.mk.injEq] at heq
    rw [← heq.2]
    exact hinv
  · split at heq
    · simp only [Except.ok.injEq, Prod.mk.injEq] at heq
      rw [← heq.2]
      exact hinv
    · rename_i hl hu'
      have huT : StarboardChannel.check_unique db g s = true := by
        revert hu'
        cases StarboardChannel.check_unique db g s <;> simp
      split at heq
      · exact absurd heq (by simp)
      · simp only [Except.ok.injEq, Prod.mk.injEq] at heq
        rw [← heq.2]
        exact hinv
      · rename_i hget
        split at heq
        · exact absurd heq (by simp)
        · rename_i db2' hset
          simp only [Except.ok.injEq, Prod.mk.injEq] at heq
          rw [← heq.2]
          have hF1 := (check_unique_iff db g s).mp huT
          have hG := get_ok_none_sources db t hget
          have hinvP := (noSourceTargetOverlap_iff db).mp hinv
          rw [StarboardChannel.set] at hset
          split at hset
          · exact absurd hset (by simp)
          · simp only [Except.ok.injEq] at hset
            rw [← hset]
            rw [noSourceTargetOverlap_iff]
            intro r hr r2 hr2
            rw [List.mem_append] at hr hr2
            rcases hr with hr | hr <;> rcases hr2 with hr2 | hr2
            · exact hinvP r hr r2 hr2
            · have hr2n : r2 = ⟨freshIdx (db.map (fun r => r.idx)), g, s, t, l⟩ := by
                simpa using hr2
              subst hr2n
              rintro ⟨hg', hs'⟩
              by_cases ht0 : t = 0
              · rw [hG.2 ht0] at hr
                simp at hr
              · exact (hG.1 ht0 r hr) (by simpa using hs')
            · have hrn : r = ⟨freshIdx (db.map (fun r => r.idx)), g, s, t, l⟩ := by
                simpa using hr
              subst hrn
              rintro ⟨hg', hs'⟩
              have hg2 : r2.guild_id = g := by simpa using hg'.symm
              have hs2 : r2.starboard_channel_id = s := by simpa using hs'.symm
              exact (hF1 r2 hr2 hg2).2 hs2
            · have hrn : r = ⟨freshIdx (db.map (fun r => r.idx)), g, s, t, l⟩ := by
                simpa using hr
              have hr2n : r2 = ⟨freshIdx (db.map (fun r => r.idx)), g, s, t, l⟩ := by
                simpa using hr2
              subst hrn
              subst hr2n
              rintro ⟨hg', hs'⟩
              exact hst (by simpa using hs')
          · rename_i row hoon
            simp only [Except.ok.injEq] at hset
            rw [← hset]
            rw [noSourceTargetOverlap_iff]
            intro r hr r2 hr2
            rw [List.mem_map] at hr hr2
            obtain ⟨a, ha, rfl⟩ := hr
            obtain ⟨b, hb, rfl⟩ := hr2
            have hfields : ∀ x : StarboardChannel,
                ((if x == row then
                    (⟨x.idx, x.guild_id, x.source_channel_id, x.starboard_channel_id, l⟩
                      : StarboardChannel)
                  else x).guild_id = x.guild_id ∧
                  (if x == row then
                    (⟨x.idx, x.guild_id, x.source_channel_id, x.starboard_channel_id, l⟩
                      : StarboardChannel)
                  else x).source_channel_id = x.source_channel_id ∧
                  (if x == row then
                    (⟨x.idx, x.guild_id, x.source_channel_id, x.starboard_channel_id, l⟩
                      : StarboardChannel)
                  else x).starboard_channel_id = x.starboard_channel_id) := by
              intro x
              by_cases hx : x == row <;> simp [hx]
            rintro ⟨hg', hs'⟩
            refine hinvP a ha b hb ⟨?_, ?_⟩
            · rw [← (hfields a).1, ← (hfields b).1]
              exact hg'
            · rw [← (hfields a).2.1, ← (hfields b).2.2]
              exact hs'

/-- Witness for C9 amended: adding a second, distinct source/starboard pair
(4, 6) next to an existing pair (2, 3) in guild 1 keeps the invariant. -/
theorem admin_set_overlap_witness :
    noSourceTargetOverlap [⟨1, 1, 2, 3, 5⟩, ⟨2, 1, 4, 6, 2⟩] = true :=
  admin_set_preserves_overlap_for_distinct_channels
    [⟨1, 1, 2, 3, 5⟩] 1 4 6 2 SetResult.accepted [⟨1, 1, 2, 3, 5⟩, ⟨2, 1, 4, 6, 2⟩]
    (by decide) (by decide) rfl
